import Mathlib

/-!
A shallow embedding of the `domainr` domain-availability checker
(`checker.go`, `main.go`).  The browser-automation driver is treated as an
external collaborator: the readable state of a page (whether
navigation succeeded, whether a result element appeared, the page title,
the successive element counts reported while polling, and the matched
result elements) is supplied by an oracle, and DOM reads on a single
element are modelled as total functions of the element's readable state.
All control flow of the checker itself is translated directly from the
source.
-/

namespace Domainr

/-- Model of `DomainStatus` from checker.go: `StatusUnknown`, `StatusAvailable`,
`StatusTaken` (the zero value is `StatusUnknown`). -/
inductive DomainStatus
  | statusUnknown
  | statusAvailable
  | statusTaken
  deriving DecidableEq, Repr

/-- Model of `DomainResult` from checker.go: domain text, status, price text
(the Go zero value of `Price` is the empty string). -/
structure DomainResult where
  domain : String
  status : DomainStatus
  price : String
  deriving DecidableEq, Repr

/-- The two parse failures produced by `parseArticle`
("no domain name found", "empty domain name").  Reads of element text are
modelled as total, so the "getting domain text" wrapper for a failed read
does not arise in the model. -/
inductive ParseFailure
  | noDomainName
  | emptyDomainName
  deriving DecidableEq, Repr

/-- ASCII lower-casing of one character.  Go's `strings.ToLower` performs
full Unicode case mapping; the inputs of this program (domain names and
page markers) are handled by the ASCII case. -/
def charLower (c : Char) : Char :=
  if 'A' ≤ c && c ≤ 'Z' then Char.ofNat (c.toNat + 32) else c

/-- Models Go's `strings.ToLower` (ASCII case mapping, see `charLower`). -/
def lowerStr (s : String) : String :=
  String.mk (s.toList.map charLower)

/-- The whitespace test used by the model's `trimStr`; Go's
`unicode.IsSpace` on the ASCII range. -/
def isSpaceChar (c : Char) : Bool :=
  c = ' ' || c = '\t' || c = '\n' || c = '\r'

/-- Models Go's `strings.TrimSpace`: drop whitespace from both ends. -/
def trimStr (s : String) : String :=
  String.mk (((s.toList.dropWhile isSpaceChar).reverse.dropWhile isSpaceChar).reverse)

/-- Here `startsWithSeq p s` is true when the character list `p` is an initial
segment of `s`. -/
def startsWithSeq : List Char → List Char → Bool
  | [], _ => true
  | _ :: _, [] => false
  | c :: cs, d :: ds => c = d && startsWithSeq cs ds

/-- Here `containsSeq sub s` is true when `sub` occurs contiguously in `s`. -/
def containsSeq (sub : List Char) : List Char → Bool
  | [] => startsWithSeq sub []
  | d :: ds => startsWithSeq sub (d :: ds) || containsSeq sub ds

/-- Substring test: `containsSub s sub` models Go's
`strings.Contains(s, sub)`. -/
def containsSub (s sub : String) : Bool :=
  containsSeq sub.toList s.toList

/-- The readable state of one result element (`article[class*='domain-']`):
the text contents of matches of `.domain-name .name h2`, of matches of
`h2`, the element's `class` attribute (`none` models a failed attribute
read), and the text contents of matches of `.price strong`. -/
structure Article where
  nameHeadings : List String
  headings : List String
  classAttr : Option String
  prices : List String
  deriving Repr

/-- checker.go lines 203-212: lower-case the `class` attribute and test for
the substrings " available" and " unavailable", in that order; a failed
attribute read leaves the zero value `StatusUnknown`. -/
def statusFromClasses (classAttr : Option String) : DomainStatus :=
  match classAttr with
  | none => .statusUnknown
  | some classes =>
      let classList := lowerStr classes
      if containsSub classList " available" then .statusAvailable
      else if containsSub classList " unavailable" then .statusTaken
      else .statusUnknown

/-- Model of `parseArticle` from checker.go lines 177-225: take the first match of
`.domain-name .name h2`, falling back to the first match of `h2`; fail if
neither selector matches; trim the text and fail if it is empty; read the
status from the class attribute; read and trim the first `.price strong`
text if present. -/
def parseArticle (article : Article) : Except ParseFailure DomainResult :=
  let nameTexts :=
    if article.nameHeadings.length = 0 then article.headings
    else article.nameHeadings
  match nameTexts with
  | [] => .error .noDomainName
  | name :: _ =>
      let domain := trimStr name
      if domain = "" then .error .emptyDomainName
      else
        let status := statusFromClasses article.classAttr
        let price :=
          match article.prices with
          | [] => ""
          | p :: _ => trimStr p
        .ok { domain := domain, status := status, price := price }

/-- The `found` accumulator (`map[string]DomainResult`), modelled as an
association list without duplicate keys. -/
abbrev FoundMap := List (String × DomainResult)

/-- Go map assignment `m[key] = v`: replace the entry for `key` if present,
otherwise append it. -/
def mapInsert (m : FoundMap) (key : String) (v : DomainResult) : FoundMap :=
  match m with
  | [] => [(key, v)]
  | (k, w) :: rest =>
      if k = key then (key, v) :: rest else (k, w) :: mapInsert rest key v

/-- Go map lookup `m[key]`. -/
def mapLookup (m : FoundMap) (key : String) : Option DomainResult :=
  match m with
  | [] => none
  | (k, w) :: rest => if k = key then some w else mapLookup rest key

/-- Model of `scrapeResults` from checker.go lines 158-175, after the element query
has succeeded: parse each article, skip parse failures, and store every
parsed result whose lower-cased domain is in `wanted` under that
lower-cased key. -/
def scrapeResults (articles : List Article) (wanted : List String)
    (found : FoundMap) : FoundMap :=
  match articles with
  | [] => found
  | a :: rest =>
      match parseArticle a with
      | .error _ => scrapeResults rest wanted found
      | .ok result =>
          let key := lowerStr result.domain
          if wanted.contains key then
            scrapeResults rest wanted (mapInsert found key result)
          else
            scrapeResults rest wanted found

example : parseArticle
    { nameHeadings := ["  x.com "], headings := [],
      classAttr := some "domain-box available", prices := ["$1.00"] } =
    .ok { domain := "x.com", status := .statusAvailable, price := "$1.00" } := by
  rfl

example : parseArticle
    { nameHeadings := [], headings := [],
      classAttr := some "domain-box available", prices := [] } =
    .error .noDomainName := by
  rfl

example : statusFromClasses (some "domain-box UNavailable") = .statusTaken := by
  decide

example : statusFromClasses (some "available domain-box") = .statusUnknown := by
  decide

example : scrapeResults
    [{ nameHeadings := ["x.com"], headings := [],
       classAttr := some "domain-box available", prices := [] }]
    ["x.com"] [] =
    [("x.com", { domain := "x.com", status := .statusAvailable, price := "" })] := by
  rfl

/-- The readable state the browser presents for one execution of
`searchAndScrape`: whether navigation succeeds, whether the first result
element appears within the 30 s wait, the page title read after a wait
timeout (a failed title read is the empty string), the element count
reported by the i-th stabilization poll, whether the bulk element query of
`scrapeResults` succeeds, and the result elements themselves. -/
structure PageBehavior where
  navOk : Bool
  resultsAppear : Bool
  title : String
  pollCounts : Nat → Nat
  scrapeOk : Bool
  articles : List Article

/-- The stabilization loop of checker.go lines 142-153.  `prevCount` and
`i` carry the loop state (`i` counts iterations already executed; each
iteration sleeps 400 ms and then polls the element count); the last
argument is the number of iterations still allowed.  The value is the
number of polls executed paired with whether the loop exited through the
`break`. -/
def stabilizeAux (counts : Nat → Nat) (prevCount i : Nat) : Nat → Nat × Bool
  | 0 => (i, false)
  | remaining + 1 =>
      let count := counts i
      if 0 < count ∧ count = prevCount then (i + 1, true)
      else stabilizeAux counts count (i + 1) remaining

/-- Number of stabilization polls executed and whether the loop exited
early, for a page whose i-th poll reports `counts i` elements
(checker.go lines 145-153: `prevCount := 0`, at most 5 iterations). -/
def stabilizePolls (counts : Nat → Nat) : Nat × Bool :=
  stabilizeAux counts 0 0 5

/-- The failures `searchAndScrape` can produce: a navigation error, the
distinguished Cloudflare `errCloudflareBlocked` sentinel, the generic
"waiting for results (possibly rate limited)" error, and a failure of the
bulk element query in `scrapeResults`. -/
inductive SearchFailure
  | navigating
  | blocked
  | rateLimited
  | scraping
  deriving DecidableEq, Repr

/-- Model of `searchAndScrape` from checker.go lines 120-156: navigate, wait for the
first result element, on timeout classify the failure by searching the
lower-cased page title for "just a moment", otherwise run the
stabilization loop (whose value does not influence the result) and then
scrape. -/
def searchAndScrape (page : PageBehavior) (wanted : List String)
    (found : FoundMap) : Except SearchFailure FoundMap :=
  if !page.navOk then .error .navigating
  else if !page.resultsAppear then
    if containsSub (lowerStr page.title) "just a moment" then .error .blocked
    else .error .rateLimited
  else
    let _ := stabilizePolls page.pollCounts
    if !page.scrapeOk then .error .scraping
    else .ok (scrapeResults page.articles wanted found)

/-- Constant `maxRetries` from checker.go line 96. -/
def maxRetries : Nat := 3

/-- Errors surfaced by `searchWithRetry`: a pass-through of the failure of
the final attempt, or the "giving up after N attempts" error wrapping the
last underlying failure. -/
inductive RetryFailure
  | search (e : SearchFailure)
  | givingUp (attempts : Nat) (last : SearchFailure)
  deriving DecidableEq, Repr

/-- The observable behaviour of one `searchWithRetry` call: how many times
`searchAndScrape` was invoked, the backoff sleeps in seconds in order (the
code prints one "Retrying ..." diagnostic immediately before each of these
sleeps, so this list also counts the diagnostics), and the final value. -/
structure RetryTrace where
  calls : Nat
  sleeps : List Nat
  result : Except RetryFailure FoundMap

/-- The loop body of `searchWithRetry` (checker.go lines 98-118).
`attempt` is the 0-based Go loop variable; the last argument is the number
of loop iterations still allowed.  Exhausting the loop is only reachable
after a blocked attempt, matching `lastErr` being the Cloudflare sentinel
there. -/
def searchWithRetryAux (oracle : Nat → PageBehavior) (wanted : List String)
    (found : FoundMap) (attempt : Nat) (sleeps : List Nat) :
    Nat → RetryTrace
  | 0 =>
      { calls := attempt, sleeps := sleeps,
        result := .error (.givingUp maxRetries .blocked) }
  | remaining + 1 =>
      let sleeps := if 0 < attempt then sleeps ++ [attempt * 3] else sleeps
      match searchAndScrape (oracle attempt) wanted found with
      | .ok found2 =>
          { calls := attempt + 1, sleeps := sleeps, result := .ok found2 }
      | .error e =>
          if e = .blocked then
            searchWithRetryAux oracle wanted found (attempt + 1) sleeps remaining
          else
            { calls := attempt + 1, sleeps := sleeps,
              result := .error (.search e) }

/-- Model of `searchWithRetry` from checker.go lines 98-118, driven by an oracle
giving the page behaviour seen by each attempt. -/
def searchWithRetry (oracle : Nat → PageBehavior) (wanted : List String)
    (found : FoundMap) : RetryTrace :=
  searchWithRetryAux oracle wanted found 0 [] maxRetries

/-- The lower-cased membership list built at checker.go lines 58-61
(`wanted`). -/
def lowerList (domains : List String) : List String :=
  domains.map lowerStr

/-- The follow-up loop of `CheckDomains` (checker.go lines 70-80): for each
input domain in order, skip it if its lower-cased key is already in
`found`, otherwise sleep 1.5 s and search for it individually; a failure
appends one warning line naming the domain and the loop continues. -/
def followUps (oracle : String → Nat → PageBehavior) (wanted : List String)
    (found : FoundMap) (ds : List String) (warnings : List String) :
    FoundMap × List String :=
  match ds with
  | [] => (found, warnings)
  | d :: rest =>
      match mapLookup found (lowerStr d) with
      | some _ => followUps oracle wanted found rest warnings
      | none =>
          match (searchWithRetry (oracle d) wanted found).result with
          | .ok found2 => followUps oracle wanted found2 rest warnings
          | .error _ => followUps oracle wanted found rest (warnings ++ [d])

/-- The output loop of `CheckDomains` (checker.go lines 82-91): one result
per input domain in input order; a domain whose lower-cased key is absent
from `found` is emitted with its original casing, `StatusUnknown` and the
zero-value price. -/
def buildResults (domains : List String) (found : FoundMap) :
    List DomainResult :=
  domains.map fun d =>
    match mapLookup found (lowerStr d) with
    | some r => r
    | none => { domain := d, status := .statusUnknown, price := "" }

/-- What a completed run returns: the ordered results, the warning lines
written to standard error by the follow-up loop, and the final state of
the `found` accumulator. -/
structure RunOutcome where
  results : List DomainResult
  warnings : List String
  found : FoundMap
  deriving DecidableEq, Repr

/-- Model of `CheckDomains` from checker.go lines 29-94, after browser setup (the
playwright/browser/page creation is external and precedes any use of the
input list).  The `none` value models the out-of-range panic of
`domains[0]` on an empty input list.  A seed-query failure is returned as
the run's error (the code wraps it in "searching for %s: %w"). -/
def checkDomains (oracle : String → Nat → PageBehavior)
    (domains : List String) : Option (Except RetryFailure RunOutcome) :=
  match domains with
  | [] => none
  | d0 :: _ =>
      let wanted := lowerList domains
      match (searchWithRetry (oracle d0) wanted []).result with
      | .error e => some (.error e)
      | .ok found1 =>
          let state := followUps oracle wanted found1 domains []
          some (.ok { results := buildResults domains state.1,
                      warnings := state.2, found := state.1 })

/-- Split a character list at every occurrence of a separator character
(models `strings`/regex alternation boundaries for the domain grammar). -/
def splitOnChar (sep : Char) : List Char → List (List Char)
  | [] => [[]]
  | c :: rest =>
      let groups := splitOnChar sep rest
      if c = sep then [] :: groups
      else
        match groups with
        | [] => [[c]]
        | g :: gs => (c :: g) :: gs

/-- Character class `[a-zA-Z]`. -/
def isAlphaChar (c : Char) : Bool :=
  ('a' ≤ c && c ≤ 'z') || ('A' ≤ c && c ≤ 'Z')

/-- Character class `[a-zA-Z0-9]`. -/
def isAlnumChar (c : Char) : Bool :=
  isAlphaChar c || ('0' ≤ c && c ≤ '9')

/-- The first-label group of `domainRegex` in main.go line 21:
`[a-zA-Z0-9]([a-zA-Z0-9-]*[a-zA-Z0-9])?`. -/
def firstLabelOk (label : List Char) : Bool :=
  match label with
  | [] => false
  | [c] => isAlnumChar c
  | c :: rest =>
      isAlnumChar c && isAlnumChar (rest.getLastD 'a') &&
        rest.dropLast.all (fun x => isAlnumChar x || x = '-')

/-- One suffix-label group of `domainRegex`: `[a-zA-Z]{2,}`. -/
def suffixLabelOk (label : List Char) : Bool :=
  2 ≤ label.length && label.all isAlphaChar

/-- Model of `domainRegex.MatchString` from main.go line 21:
`^[a-zA-Z0-9]([a-zA-Z0-9-]*[a-zA-Z0-9])?(\.[a-zA-Z]{2,})+$`, expressed on
the dot-separated labels. -/
def validDomain (s : String) : Bool :=
  match splitOnChar '.' s.toList with
  | [] => false
  | first :: rest =>
      firstLabelOk first && !rest.isEmpty && rest.all suffixLabelOk

/-- The observable outcomes of `main` from main.go lines 23-51, with the
browser driven by an oracle: usage text and exit code 1 on an empty
argument list, exit code 1 naming the first invalid domain, an
`Error: ...` line and exit code 1 when `CheckDomains` fails, the printed
result table on success, and `panicked` for a Go runtime panic inside
`CheckDomains`. -/
inductive MainOutcome
  | usageExit
  | invalidExit (d : String)
  | errorExit (e : RetryFailure)
  | printed (results : List DomainResult)
  | panicked
  deriving DecidableEq, Repr

/-- Model of `main` from main.go lines 23-51 (flag parsing abstracted away): guard
the empty argument list, validate every argument, then run
`CheckDomains`. -/
def mainModel (oracle : String → Nat → PageBehavior) (args : List String) :
    MainOutcome :=
  if args.isEmpty then .usageExit
  else
    match args.find? (fun d => !validDomain d) with
    | some d => .invalidExit d
    | none =>
        match checkDomains oracle args with
        | none => .panicked
        | some (.error e) => .errorExit e
        | some (.ok out) => .printed out.results

/-- Modelled from the spec's words for §4.1/§8 only (used to compare the
spec's class-token reading of status detection with the source's substring
test): a class attribute carries a distinct token when the token is one of
its whitespace-separated words, compared case-insensitively. -/
def hasClassToken (classes token : String) : Bool :=
  ((splitOnChar ' ' (lowerStr classes).toList).map String.mk).contains token

example : validDomain "a-b.com" = true := by decide
example : validDomain "a" = false := by decide
example : validDomain "a..com" = false := by decide
example : validDomain "a.b.cd" = false := by decide
example : validDomain "a.co.uk" = true := by decide
example : hasClassToken "Available domain-box" "available" = true := by decide
example : hasClassToken "unavailable domain-box" "available" = false := by decide

/-! ### Concrete fixtures used by counterexamples and witnesses -/

/-- A result element for `x.com` rendered as available at `$1.00`. -/
def artA : Article :=
  { nameHeadings := ["x.com"], headings := [],
    classAttr := some "domain-box available", prices := ["$1.00"] }

/-- A second result element for the same domain `x.com`, rendered as
unavailable. -/
def artB : Article :=
  { nameHeadings := ["x.com"], headings := [],
    classAttr := some "domain-box unavailable", prices := [] }

/-- Value of `parseArticle artA`. -/
def resA : DomainResult :=
  { domain := "x.com", status := .statusAvailable, price := "$1.00" }

/-- Value of `parseArticle artB`. -/
def resB : DomainResult :=
  { domain := "x.com", status := .statusTaken, price := "" }

/-- A result element whose class attribute starts with the token
`available` (so no space precedes it). -/
def artC : Article :=
  { nameHeadings := ["y.com"], headings := [],
    classAttr := some "available domain-box", prices := [] }

/-- A page that fails at navigation. -/
def pageNavFail : PageBehavior :=
  { navOk := false, resultsAppear := false, title := "",
    pollCounts := fun _ => 0, scrapeOk := true, articles := [] }

/-- A page stuck on the Cloudflare challenge: the wait times out and the
title is the challenge marker. -/
def pageBlocked : PageBehavior :=
  { navOk := true, resultsAppear := false, title := "Just a moment...",
    pollCounts := fun _ => 0, scrapeOk := true, articles := [] }

/-- A page whose results appear but which renders no result elements. -/
def pageEmptyOk : PageBehavior :=
  { navOk := true, resultsAppear := true, title := "",
    pollCounts := fun _ => 1, scrapeOk := true, articles := [] }

/-- A page rendering the single element `artA`. -/
def pageA : PageBehavior :=
  { navOk := true, resultsAppear := true, title := "",
    pollCounts := fun _ => 1, scrapeOk := true, articles := [artA] }

/-- An oracle under which every attempt of every query fails at
navigation. -/
def oracleNone : String → Nat → PageBehavior := fun _ _ => pageNavFail

/-- A retry oracle blocked on every attempt. -/
def oracleBlocked : Nat → PageBehavior := fun _ => pageBlocked

/-- A retry oracle blocked on the first attempt and successful on every
later one. -/
def oracleBlockedOnce : Nat → PageBehavior :=
  fun i => if i = 0 then pageBlocked else pageEmptyOk

example : searchWithRetry oracleBlocked [] [] =
    { calls := 3, sleeps := [3, 6],
      result := .error (.givingUp 3 .blocked) } := by
  rfl

example : searchWithRetry oracleBlockedOnce [] [] =
    { calls := 2, sleeps := [3], result := .ok [] } := by
  rfl

example : searchWithRetry (fun _ => pageNavFail) [] [] =
    { calls := 1, sleeps := [], result := .error (.search .navigating) } := by
  rfl

example : checkDomains (fun _ _ => pageA) ["x.com"] =
    some (.ok { results := [resA], warnings := [],
                found := [("x.com", resA)] }) := by
  rfl

/-! ### C4: stabilization loop termination and early exit -/

/-- Claim C4: the stabilization phase performs at most 5 polling iterations
(each iteration sleeps 400 ms and then polls once, so at most 5 sleeps as
well) and always terminates (`stabilizePolls` is a total function whose
first component is the number of polls).  The loop exits through its
`break` exactly when some poll reports a non-zero count equal to the count
reported by the immediately preceding poll; when it never does, all 5
polls run. -/
theorem stabilization_bounded (counts : Nat → Nat) :
    (stabilizePolls counts).1 ≤ 5 ∧
    ((stabilizePolls counts).2 = true ↔
      ∃ i, i < 4 ∧ counts (i + 1) ≠ 0 ∧ counts (i + 1) = counts i) ∧
    ((stabilizePolls counts).2 = false → (stabilizePolls counts).1 = 5) := by
  have h0 : ¬(0 < counts 0 ∧ counts 0 = 0) := by omega
  have e1 : stabilizePolls counts =
      if 0 < counts 0 ∧ counts 0 = 0 then (1, true)
      else stabilizeAux counts (counts 0) 1 4 := rfl
  have e2 : stabilizeAux counts (counts 0) 1 4 =
      if 0 < counts 1 ∧ counts 1 = counts 0 then (2, true)
      else stabilizeAux counts (counts 1) 2 3 := rfl
  have e3 : stabilizeAux counts (counts 1) 2 3 =
      if 0 < counts 2 ∧ counts 2 = counts 1 then (3, true)
      else stabilizeAux counts (counts 2) 3 2 := rfl
  have e4 : stabilizeAux counts (counts 2) 3 2 =
      if 0 < counts 3 ∧ counts 3 = counts 2 then (4, true)
      else stabilizeAux counts (counts 3) 4 1 := rfl
  have e5 : stabilizeAux counts (counts 3) 4 1 =
      if 0 < counts 4 ∧ counts 4 = counts 3 then (5, true)
      else stabilizeAux counts (counts 4) 5 0 := rfl
  have e6 : stabilizeAux counts (counts 4) 5 0 = (5, false) := rfl
  by_cases h1 : 0 < counts 1 ∧ counts 1 = counts 0
  · have hv : stabilizePolls counts = (2, true) := by
      rw [e1, if_neg h0, e2, if_pos h1]
    rw [hv]
    refine ⟨by norm_num, ?_, by simp⟩
    exact iff_of_true rfl ⟨0, by norm_num, Nat.pos_iff_ne_zero.mp h1.1, h1.2⟩
  · by_cases h2 : 0 < counts 2 ∧ counts 2 = counts 1
    · have hv : stabilizePolls counts = (3, true) := by
        rw [e1, if_neg h0, e2, if_neg h1, e3, if_pos h2]
      rw [hv]
      refine ⟨by norm_num, ?_, by simp⟩
      exact iff_of_true rfl ⟨1, by norm_num, Nat.pos_iff_ne_zero.mp h2.1, h2.2⟩
    · by_cases h3 : 0 < counts 3 ∧ counts 3 = counts 2
      · have hv : stabilizePolls counts = (4, true) := by
          rw [e1, if_neg h0, e2, if_neg h1, e3, if_neg h2, e4, if_pos h3]
        rw [hv]
        refine ⟨by norm_num, ?_, by simp⟩
        exact iff_of_true rfl ⟨2, by norm_num, Nat.pos_iff_ne_zero.mp h3.1, h3.2⟩
      · by_cases h4 : 0 < counts 4 ∧ counts 4 = counts 3
        · have hv : stabilizePolls counts = (5, true) := by
            rw [e1, if_neg h0, e2, if_neg h1, e3, if_neg h2, e4, if_neg h3,
              e5, if_pos h4]
          rw [hv]
          refine ⟨by norm_num, ?_, by simp⟩
          exact iff_of_true rfl
            ⟨3, by norm_num, Nat.pos_iff_ne_zero.mp h4.1, h4.2⟩
        · have hv : stabilizePolls counts = (5, false) := by
            rw [e1, if_neg h0, e2, if_neg h1, e3, if_neg h2, e4, if_neg h3,
              e5, if_neg h4, e6]
          rw [hv]
          refine ⟨by norm_num, ?_, fun _ => rfl⟩
          refine iff_of_false (by simp) ?_
          rintro ⟨i, hi, hne, heq⟩
          have hpos := Nat.pos_of_ne_zero hne
          interval_cases i
          · exact h1 ⟨hpos, heq⟩
          · exact h2 ⟨hpos, heq⟩
          · exact h3 ⟨hpos, heq⟩
          · exact h4 ⟨hpos, heq⟩

/-- Witness for C4: on a page whose element count never stabilizes
(every poll reports 0), the bound holds and all 5 polls run. -/
theorem stabilization_bounded_witness :
    (stabilizePolls (fun _ => 0)).1 ≤ 5 ∧ (stabilizePolls (fun _ => 0)).1 = 5 :=
  ⟨(stabilization_bounded (fun _ => 0)).1,
   (stabilization_bounded (fun _ => 0)).2.2 rfl⟩

/-! ### C3: retry policy -/

section Retry

variable (oracle : Nat → PageBehavior) (wanted : List String) (found : FoundMap)

/-- One unfolding step of the retry loop: attempt 0 (no sleep). -/
theorem retryStep0 :
    searchWithRetry oracle wanted found =
      (match searchAndScrape (oracle 0) wanted found with
       | .ok f2 => { calls := 1, sleeps := [], result := .ok f2 }
       | .error e =>
           if e = .blocked then searchWithRetryAux oracle wanted found 1 [] 2
           else { calls := 1, sleeps := [], result := .error (.search e) }) :=
  rfl

/-- One unfolding step of the retry loop: attempt 1 (after a 3 s sleep). -/
theorem retryStep1 :
    searchWithRetryAux oracle wanted found 1 [] 2 =
      (match searchAndScrape (oracle 1) wanted found with
       | .ok f2 => { calls := 2, sleeps := [3], result := .ok f2 }
       | .error e =>
           if e = .blocked then searchWithRetryAux oracle wanted found 2 [3] 1
           else { calls := 2, sleeps := [3], result := .error (.search e) }) :=
  rfl

/-- One unfolding step of the retry loop: attempt 2 (after a 6 s sleep). -/
theorem retryStep2 :
    searchWithRetryAux oracle wanted found 2 [3] 1 =
      (match searchAndScrape (oracle 2) wanted found with
       | .ok f2 => { calls := 3, sleeps := [3, 6], result := .ok f2 }
       | .error e =>
           if e = .blocked then searchWithRetryAux oracle wanted found 3 [3, 6] 0
           else { calls := 3, sleeps := [3, 6],
                  result := .error (.search e) }) :=
  rfl

/-- Exhausting the loop after three blocked attempts. -/
theorem retryStepEnd :
    searchWithRetryAux oracle wanted found 3 [3, 6] 0 =
      { calls := 3, sleeps := [3, 6],
        result := .error (.givingUp 3 .blocked) } :=
  rfl

/-- Claim C3: the retrying search retries only on the Blocked failure, makes
at most 3 `searchAndScrape` calls, sleeps `attempt * 3` seconds before each
retry (3 s before attempt 2, 6 s before attempt 3; one diagnostic is
printed immediately before each such sleep, counted by `sleeps`): if the
first `k < 3` attempts are Blocked and attempt `k` succeeds, there are
exactly `k + 1` calls; a non-Blocked failure ends the loop immediately
with that error and no further attempt; three Blocked attempts produce the
"giving up after 3 attempts" error wrapping the last (Blocked) failure. -/
theorem retry_policy :
    (∀ k f2, k < 3 →
      (∀ i, i < k → searchAndScrape (oracle i) wanted found = .error .blocked) →
      searchAndScrape (oracle k) wanted found = .ok f2 →
      searchWithRetry oracle wanted found =
        { calls := k + 1, sleeps := (List.range k).map (fun i => (i + 1) * 3),
          result := .ok f2 }) ∧
    (∀ k e, k < 3 → e ≠ .blocked →
      (∀ i, i < k → searchAndScrape (oracle i) wanted found = .error .blocked) →
      searchAndScrape (oracle k) wanted found = .error e →
      searchWithRetry oracle wanted found =
        { calls := k + 1, sleeps := (List.range k).map (fun i => (i + 1) * 3),
          result := .error (.search e) }) ∧
    ((∀ i, i < 3 → searchAndScrape (oracle i) wanted found = .error .blocked) →
      searchWithRetry oracle wanted found =
        { calls := 3, sleeps := [3, 6],
          result := .error (.givingUp 3 .blocked) }) := by
  refine ⟨?_, ?_, ?_⟩
  · intro k f2 hk hprev hok
    interval_cases k
    · rw [retryStep0, hok]; rfl
    · have hb0 := hprev 0 (by norm_num)
      rw [retryStep0, hb0]
      show (if SearchFailure.blocked = SearchFailure.blocked
        then searchWithRetryAux oracle wanted found 1 [] 2 else _) = _
      rw [if_pos rfl, retryStep1, hok]; rfl
    · have hb0 := hprev 0 (by norm_num)
      have hb1 := hprev 1 (by norm_num)
      rw [retryStep0, hb0]
      show (if SearchFailure.blocked = SearchFailure.blocked
        then searchWithRetryAux oracle wanted found 1 [] 2 else _) = _
      rw [if_pos rfl, retryStep1, hb1]
      show (if SearchFailure.blocked = SearchFailure.blocked
        then searchWithRetryAux oracle wanted found 2 [3] 1 else _) = _
      rw [if_pos rfl, retryStep2, hok]; rfl
  · intro k e hk hne hprev herr
    interval_cases k
    · rw [retryStep0, herr]
      show (if e = SearchFailure.blocked then _ else _) = _
      rw [if_neg hne]; rfl
    · have hb0 := hprev 0 (by norm_num)
      rw [retryStep0, hb0]
      show (if SearchFailure.blocked = SearchFailure.blocked
        then searchWithRetryAux oracle wanted found 1 [] 2 else _) = _
      rw [if_pos rfl, retryStep1, herr]
      show (if e = SearchFailure.blocked then _ else _) = _
      rw [if_neg hne]; rfl
    · have hb0 := hprev 0 (by norm_num)
      have hb1 := hprev 1 (by norm_num)
      rw [retryStep0, hb0]
      show (if SearchFailure.blocked = SearchFailure.blocked
        then searchWithRetryAux oracle wanted found 1 [] 2 else _) = _
      rw [if_pos rfl, retryStep1, hb1]
      show (if SearchFailure.blocked = SearchFailure.blocked
        then searchWithRetryAux oracle wanted found 2 [3] 1 else _) = _
      rw [if_pos rfl, retryStep2, herr]
      show (if e = SearchFailure.blocked then _ else _) = _
      rw [if_neg hne]; rfl
  · intro hall
    have hb0 := hall 0 (by norm_num)
    have hb1 := hall 1 (by norm_num)
    have hb2 := hall 2 (by norm_num)
    rw [retryStep0, hb0]
    show (if SearchFailure.blocked = SearchFailure.blocked
      then searchWithRetryAux oracle wanted found 1 [] 2 else _) = _
    rw [if_pos rfl, retryStep1, hb1]
    show (if SearchFailure.blocked = SearchFailure.blocked
      then searchWithRetryAux oracle wanted found 2 [3] 1 else _) = _
    rw [if_pos rfl, retryStep2, hb2]
    show (if SearchFailure.blocked = SearchFailure.blocked
      then searchWithRetryAux oracle wanted found 3 [3, 6] 0 else _) = _
    rw [if_pos rfl, retryStepEnd]

end Retry

/-- Witness for C3: concrete oracles exercising each clause — three
Blocked attempts give the giving-up error after 3 calls and sleeps of 3 s
and 6 s; a Blocked first attempt followed by success gives 2 calls and one
3 s sleep; an immediate non-Blocked failure gives a single call with no
sleep and no retry. -/
theorem retry_policy_witness :
    searchWithRetry oracleBlocked [] [] =
      { calls := 3, sleeps := [3, 6],
        result := .error (.givingUp 3 .blocked) } ∧
    searchWithRetry oracleBlockedOnce [] [] =
      { calls := 2, sleeps := [3], result := .ok [] } ∧
    searchWithRetry (fun _ => pageNavFail) [] [] =
      { calls := 1, sleeps := [],
        result := .error (.search .navigating) } := by
  refine ⟨?_, ?_, ?_⟩
  · exact (retry_policy oracleBlocked [] []).2.2 (fun i _ => rfl)
  · exact (retry_policy oracleBlockedOnce [] []).1 1 [] (by norm_num)
      (fun i hi => by
        have : i = 0 := by omega
        rw [this]; rfl)
      rfl
  · exact (retry_policy (fun _ => pageNavFail) [] []).2.1 0 .navigating
      (by norm_num) (by decide) (fun i hi => absurd hi (by omega)) rfl

/-! ### C6: timeout classification -/

/-- A page whose wait for results times out without the challenge-page
title. -/
def pageTimeout : PageBehavior :=
  { navOk := true, resultsAppear := false, title := "Namecheap search",
    pollCounts := fun _ => 0, scrapeOk := true, articles := [] }

/-- Claim C6: when navigation succeeded but the wait for the first result
element timed out, the distinguished Blocked failure is returned if and
only if the lower-cased page title contains the substring
"just a moment"; otherwise the generic "possibly rate limited" failure is
returned. -/
theorem timeout_classification (page : PageBehavior) (wanted : List String)
    (found : FoundMap) (hnav : page.navOk = true)
    (hwait : page.resultsAppear = false) :
    (searchAndScrape page wanted found = .error .blocked ↔
      containsSub (lowerStr page.title) "just a moment" = true) ∧
    (containsSub (lowerStr page.title) "just a moment" = false →
      searchAndScrape page wanted found = .error .rateLimited) := by
  have hbody : searchAndScrape page wanted found =
      if containsSub (lowerStr page.title) "just a moment" then
        .error .blocked
      else .error .rateLimited := by
    unfold searchAndScrape
    rw [hnav, hwait]
    rfl
  cases hc : containsSub (lowerStr page.title) "just a moment" with
  | true => rw [hbody, hc]; simp
  | false => rw [hbody, hc]; simp

/-- Witness for C6: the challenge-page title yields the Blocked failure,
a non-challenge title yields the rate-limited failure. -/
theorem timeout_classification_witness :
    searchAndScrape pageBlocked [] [] = .error .blocked ∧
    searchAndScrape pageTimeout [] [] = .error .rateLimited :=
  ⟨(timeout_classification pageBlocked [] [] rfl rfl).1.mpr (by decide),
   (timeout_classification pageTimeout [] [] rfl rfl).2 (by decide)⟩

/-! ### C5 and C7: parser status and failure conditions -/

/-- A successfully parsed result's status is exactly
`statusFromClasses` of the element's class attribute. -/
theorem parseArticle_ok_status (a : Article) (r : DomainResult)
    (hr : parseArticle a = .ok r) :
    r.status = statusFromClasses a.classAttr := by
  simp only [parseArticle] at hr
  split at hr
  · exact absurd hr (by simp)
  · split at hr
    · exact absurd hr (by simp)
    · simp only [Except.ok.injEq] at hr
      rw [← hr]

/-- Claim C5, counterexample: the spec's reading — status is decided by the
presence of a distinct class token — fails on the code: an element whose
class attribute is "available domain-box" carries the distinct token
"available", yet the source's substring test (which requires a leading
space) classifies it `StatusUnknown`. -/
theorem status_token_cex :
    hasClassToken "available domain-box" "available" = true ∧
    parseArticle artC =
      .ok { domain := "y.com", status := .statusUnknown, price := "" } :=
  ⟨by decide, rfl⟩

/-- Claim C5, amended: a parsed result's status is determined solely by the
element's class attribute, compared case-insensitively through substring
search with a required leading space: Available iff the lower-cased
attribute contains " available"; Taken iff it does not contain
" available" but contains " unavailable"; Unknown iff it contains
neither. -/
theorem parse_status_substring (a : Article) (classes : String)
    (hc : a.classAttr = some classes) (r : DomainResult)
    (hr : parseArticle a = .ok r) :
    (r.status = .statusAvailable ↔
      containsSub (lowerStr classes) " available" = true) ∧
    (r.status = .statusTaken ↔
      containsSub (lowerStr classes) " available" = false ∧
      containsSub (lowerStr classes) " unavailable" = true) ∧
    (r.status = .statusUnknown ↔
      containsSub (lowerStr classes) " available" = false ∧
      containsSub (lowerStr classes) " unavailable" = false) := by
  have hs := parseArticle_ok_status a r hr
  rw [hc] at hs
  cases hav : containsSub (lowerStr classes) " available" <;>
    cases hun : containsSub (lowerStr classes) " unavailable" <;>
      simp only [statusFromClasses, hav, hun, Bool.false_eq_true, if_true,
        if_false] at hs <;> simp [hs, hav, hun]

/-- Witness for C5 (amended): the element `artA` with class
"domain-box available" parses to an Available result. -/
theorem parse_status_substring_witness : resA.status = .statusAvailable :=
  (parse_status_substring artA "domain-box available" rfl resA rfl).1.mpr
    (by decide)

/-- An element with no heading at all. -/
def artNoName : Article :=
  { nameHeadings := [], headings := [], classAttr := none, prices := [] }

/-- An element whose heading text is whitespace only (a non-domain
promotional card). -/
def artBlank : Article :=
  { nameHeadings := ["   "], headings := [], classAttr := none,
    prices := [] }

/-- Claim C7: the parser fails with "no domain name found" exactly when
the nested-path selector and the fallback selector both match nothing, and
fails with "empty domain name" exactly when the heading it selected (the
nested path unless that matched nothing, else the fallback) has
whitespace-only text; `Except` never carries a result in either failure
case. -/
theorem parse_failure_conditions (a : Article) :
    (parseArticle a = .error .noDomainName ↔
      a.nameHeadings = [] ∧ a.headings = []) ∧
    (parseArticle a = .error .emptyDomainName ↔
      ∃ name rest,
        (if a.nameHeadings.length = 0 then a.headings
         else a.nameHeadings) = name :: rest ∧ trimStr name = "") := by
  cases hsel : (if a.nameHeadings.length = 0 then a.headings
      else a.nameHeadings) with
  | nil =>
      have hpa : parseArticle a = .error .noDomainName := by
        simp only [parseArticle, hsel]
      rw [hpa]
      constructor
      · refine iff_of_true rfl ?_
        by_cases hn : a.nameHeadings.length = 0
        · rw [if_pos hn] at hsel
          exact ⟨List.length_eq_zero.mp hn, hsel⟩
        · rw [if_neg hn] at hsel
          exact absurd (congrArg List.length hsel) hn
      · refine iff_of_false (by simp) ?_
        rintro ⟨name, rest, hcons, -⟩
        exact List.noConfusion hcons
  | cons name rest =>
      have hne : ¬(a.nameHeadings = [] ∧ a.headings = []) := by
        rintro ⟨hn, hh⟩
        rw [hn, hh] at hsel
        simp at hsel
      by_cases htrim : trimStr name = ""
      · have hpa : parseArticle a = .error .emptyDomainName := by
          simp only [parseArticle, hsel]
          rw [if_pos htrim]
        rw [hpa]
        exact ⟨iff_of_false (by simp) hne,
          iff_of_true rfl ⟨name, rest, rfl, htrim⟩⟩
      · have hpa : parseArticle a =
            .ok { domain := trimStr name,
                  status := statusFromClasses a.classAttr,
                  price := match a.prices with
                           | [] => ""
                           | p :: _ => trimStr p } := by
          simp only [parseArticle, hsel]
          rw [if_neg htrim]
        rw [hpa]
        refine ⟨iff_of_false (by simp) hne, iff_of_false (by simp) ?_⟩
        rintro ⟨name2, rest2, hcons, htrim2⟩
        cases hcons
        exact htrim htrim2

/-- Witness for C7: both failures realized on concrete elements. -/
theorem parse_failure_conditions_witness :
    parseArticle artNoName = .error .noDomainName ∧
    parseArticle artBlank = .error .emptyDomainName :=
  ⟨(parse_failure_conditions artNoName).1.mpr ⟨rfl, rfl⟩,
   (parse_failure_conditions artBlank).2.mpr ⟨"   ", [], rfl, rfl⟩⟩

/-! ### C1: first match does not win — later matches overwrite -/

/-- Looking up in a map after a Go-style assignment. -/
theorem mapLookup_mapInsert (m : FoundMap) (key : String) (v : DomainResult)
    (k : String) :
    mapLookup (mapInsert m key v) k =
      if key = k then some v else mapLookup m k := by
  induction m with
  | nil =>
      by_cases h : key = k <;> simp [mapInsert, mapLookup, h]
  | cons cell rest ih =>
      obtain ⟨k0, w0⟩ := cell
      by_cases h1 : k0 = key
      · subst h1
        by_cases h2 : k0 = k <;> simp [mapInsert, mapLookup, h2]
      · by_cases h2 : k0 = k
        · subst h2
          have hk : ¬(key = k0) := fun he => h1 he.symm
          simp [mapInsert, mapLookup, h1, hk]
        · simp [mapInsert, mapLookup, h1, h2, ih]

/-- Scraping a concatenation of element lists processes the second list
starting from the accumulator left by the first. -/
theorem scrapeResults_append (xs ys : List Article) (wanted : List String)
    (found : FoundMap) :
    scrapeResults (xs ++ ys) wanted found =
      scrapeResults ys wanted (scrapeResults xs wanted found) := by
  induction xs generalizing found with
  | nil => rfl
  | cons a rest ih =>
      simp only [List.cons_append, scrapeResults]
      split
      · exact ih found
      · split <;> exact ih _

/-- Claim C1, counterexample: two elements for the same domain `x.com`: after
scraping both, the accumulator holds the second parsed result, not the
first — insertion is not guarded by absence from the map, so the first
match does not win. -/
theorem first_match_cex :
    parseArticle artA = .ok resA ∧ parseArticle artB = .ok resB ∧
    scrapeResults [artA] ["x.com"] [] = [("x.com", resA)] ∧
    scrapeResults [artA, artB] ["x.com"] [] = [("x.com", resB)] ∧
    (resB == resA) = false :=
  ⟨rfl, rfl, rfl, rfl, by decide⟩

/-- Claim C1, amended: insertion into FoundMap happens for every
successfully parsed result whose lower-cased domain is in WantedSet,
whether or not the key is already present: the entry is overwritten, so
after a scrape the stored result for a key is the last successfully
parsed wanted result with that key (last match wins). -/
theorem scrape_last_match_wins (articles : List Article)
    (wanted : List String) (found : FoundMap) (a : Article)
    (r : DomainResult) (hp : parseArticle a = .ok r)
    (hw : wanted.contains (lowerStr r.domain) = true) :
    mapLookup (scrapeResults (articles ++ [a]) wanted found)
      (lowerStr r.domain) = some r := by
  rw [scrapeResults_append]
  have hone : scrapeResults [a] wanted
      (scrapeResults articles wanted found) =
      mapInsert (scrapeResults articles wanted found) (lowerStr r.domain) r := by
    simp only [scrapeResults, hp, hw, if_true]
  rw [hone, mapLookup_mapInsert, if_pos rfl]

/-- Witness for C1 (amended): after scraping `artA` then `artB`, the
stored entry for "x.com" is `artB`'s result. -/
theorem scrape_last_match_wins_witness :
    mapLookup (scrapeResults [artA, artB] ["x.com"] []) "x.com" =
      some resB :=
  scrape_last_match_wins [artA] ["x.com"] [] artB resB rfl (by decide)

/-! ### Run-level invariants -/

/-- Every entry of the accumulator is stored under the lower-cased domain
of its value. -/
def KeyConsistent (m : FoundMap) : Prop :=
  ∀ k r, mapLookup m k = some r → lowerStr r.domain = k

/-- Every key of the accumulator is a member of `wanted`. -/
def KeysWanted (wanted : List String) (m : FoundMap) : Prop :=
  ∀ k, (mapLookup m k).isSome = true → wanted.contains k = true

theorem keyConsistent_nil : KeyConsistent [] := by
  intro k r h
  simp [mapLookup] at h

theorem keysWanted_nil (wanted : List String) : KeysWanted wanted [] := by
  intro k h
  simp [mapLookup] at h

theorem keyConsistent_insert (m : FoundMap) (r : DomainResult)
    (h : KeyConsistent m) :
    KeyConsistent (mapInsert m (lowerStr r.domain) r) := by
  intro k v hkv
  rw [mapLookup_mapInsert] at hkv
  by_cases hk : lowerStr r.domain = k
  · rw [if_pos hk] at hkv
    injection hkv with hv
    rw [← hv]
    exact hk
  · rw [if_neg hk] at hkv
    exact h k v hkv

theorem keysWanted_insert (wanted : List String) (m : FoundMap)
    (key : String) (r : DomainResult) (hkey : wanted.contains key = true)
    (h : KeysWanted wanted m) : KeysWanted wanted (mapInsert m key r) := by
  intro k hk
  rw [mapLookup_mapInsert] at hk
  by_cases he : key = k
  · rw [← he]
    exact hkey
  · rw [if_neg he] at hk
    exact h k hk

theorem scrapeResults_keyConsistent (articles : List Article)
    (wanted : List String) :
    ∀ found, KeyConsistent found →
      KeyConsistent (scrapeResults articles wanted found) := by
  induction articles with
  | nil => intro found h; exact h
  | cons a rest ih =>
      intro found h
      simp only [scrapeResults]
      split
      · exact ih found h
      · split
        · exact ih _ (keyConsistent_insert found _ h)
        · exact ih found h

theorem scrapeResults_keysWanted (articles : List Article)
    (wanted : List String) :
    ∀ found, KeysWanted wanted found →
      KeysWanted wanted (scrapeResults articles wanted found) := by
  induction articles with
  | nil => intro found h; exact h
  | cons a rest ih =>
      intro found h
      simp only [scrapeResults]
      split
      · exact ih found h
      · split
        · exact ih _ (keysWanted_insert wanted found _ _ (by assumption) h)
        · exact ih found h

/-- A successful `searchAndScrape` returns exactly the scrape of its
page's elements over the incoming accumulator. -/
theorem searchAndScrape_ok (page : PageBehavior) (wanted : List String)
    (found f2 : FoundMap)
    (h : searchAndScrape page wanted found = .ok f2) :
    f2 = scrapeResults page.articles wanted found := by
  simp only [searchAndScrape] at h
  split_ifs at h
  exact (Except.ok.inj h).symm

/-- A successful retry loop owes its value to some successful
`searchAndScrape` attempt over the same incoming accumulator. -/
theorem searchWithRetryAux_ok (oracle : Nat → PageBehavior)
    (wanted : List String) (found : FoundMap) :
    ∀ (n attempt : Nat) (sleeps : List Nat) (f2 : FoundMap),
      (searchWithRetryAux oracle wanted found attempt sleeps n).result =
        .ok f2 →
      ∃ i, searchAndScrape (oracle i) wanted found = .ok f2 := by
  intro n
  induction n with
  | zero =>
      intro attempt sleeps f2 h
      exact absurd h (by simp [searchWithRetryAux])
  | succ m ih =>
      intro attempt sleeps f2 h
      simp only [searchWithRetryAux] at h
      cases hsa : searchAndScrape (oracle attempt) wanted found with
      | ok g =>
          simp only [hsa] at h
          have hg : g = f2 := by simpa using h
          exact ⟨attempt, hg ▸ hsa⟩
      | error e =>
          simp only [hsa] at h
          by_cases hb : e = SearchFailure.blocked
          · rw [if_pos hb] at h
            exact ih attempt.succ _ f2 h
          · rw [if_neg hb] at h
            exact absurd h (by simp)

theorem searchWithRetry_ok (oracle : Nat → PageBehavior)
    (wanted : List String) (found f2 : FoundMap)
    (h : (searchWithRetry oracle wanted found).result = .ok f2) :
    ∃ i, searchAndScrape (oracle i) wanted found = .ok f2 :=
  searchWithRetryAux_ok oracle wanted found maxRetries 0 [] f2 h

/-- Any accumulator property preserved by scraping is preserved by a
successful retrying search. -/
theorem searchWithRetry_preserves (oracle : Nat → PageBehavior)
    (wanted : List String) (found f2 : FoundMap) (P : FoundMap → Prop)
    (hstep : ∀ articles f, P f → P (scrapeResults articles wanted f))
    (hf : P found)
    (h : (searchWithRetry oracle wanted found).result = .ok f2) : P f2 := by
  obtain ⟨i, hi⟩ := searchWithRetry_ok oracle wanted found f2 h
  rw [searchAndScrape_ok (oracle i) wanted found f2 hi]
  exact hstep _ _ hf

/-- Any accumulator property preserved by scraping is preserved by the
whole follow-up loop. -/
theorem followUps_preserves (oracle : String → Nat → PageBehavior)
    (wanted : List String) (P : FoundMap → Prop)
    (hstep : ∀ articles f, P f → P (scrapeResults articles wanted f)) :
    ∀ (ds : List String) (found : FoundMap) (warnings : List String),
      P found → P (followUps oracle wanted found ds warnings).1 := by
  intro ds
  induction ds with
  | nil => intro f ws h; exact h
  | cons d rest ih =>
      intro f ws h
      simp only [followUps]
      cases hl : mapLookup f (lowerStr d) with
      | some r => exact ih f ws h
      | none =>
          cases hres : (searchWithRetry (oracle d) wanted f).result with
          | ok f2 =>
              exact ih f2 ws
                (searchWithRetry_preserves (oracle d) wanted f f2 P hstep h hres)
          | error e => exact ih f (ws ++ [d]) h

/-- Every warning emitted by the follow-up loop names an incoming warning
or one of the domains it was asked to process. -/
theorem followUps_warnings (oracle : String → Nat → PageBehavior)
    (wanted : List String) :
    ∀ (ds : List String) (found : FoundMap) (warnings : List String)
      (d : String),
      d ∈ (followUps oracle wanted found ds warnings).2 →
      d ∈ warnings ∨ d ∈ ds := by
  intro ds
  induction ds with
  | nil => intro f ws d h; exact Or.inl h
  | cons d0 rest ih =>
      intro f ws d h
      simp only [followUps] at h
      cases hl : mapLookup f (lowerStr d0) with
      | some r =>
          rw [hl] at h
          rcases ih f ws d h with hw | hd
          · exact Or.inl hw
          · exact Or.inr (List.mem_cons_of_mem d0 hd)
      | none =>
          rw [hl] at h
          cases hres : (searchWithRetry (oracle d0) wanted f).result with
          | ok f2 =>
              rw [hres] at h
              rcases ih f2 ws d h with hw | hd
              · exact Or.inl hw
              · exact Or.inr (List.mem_cons_of_mem d0 hd)
          | error e =>
              rw [hres] at h
              rcases ih f (ws ++ [d0]) d h with hw | hd
              · rcases List.mem_append.mp hw with h1 | h2
                · exact Or.inl h1
                · rw [List.mem_singleton] at h2
                  rw [h2]
                  exact Or.inr (List.mem_cons_self d0 rest)
              · exact Or.inr (List.mem_cons_of_mem d0 hd)

theorem buildResults_length (ds : List String) (f : FoundMap) :
    (buildResults ds f).length = ds.length := by
  simp [buildResults]

/-- Under key consistency, the output row for each input domain carries the
same lower-cased domain as the input. -/
theorem buildResults_lower (f : FoundMap) (hf : KeyConsistent f) :
    ∀ ds : List String,
      (buildResults ds f).map (fun r => lowerStr r.domain) =
        ds.map lowerStr := by
  intro ds
  induction ds with
  | nil => rfl
  | cons d rest ih =>
      have hstep : buildResults (d :: rest) f =
          (match mapLookup f (lowerStr d) with
           | some r => r
           | none => { domain := d, status := .statusUnknown, price := "" })
            :: buildResults rest f := rfl
      have hhead : lowerStr
          ((match mapLookup f (lowerStr d) with
            | some r => r
            | none =>
                { domain := d, status := .statusUnknown, price := "" }) :
            DomainResult).domain = lowerStr d := by
        cases hl : mapLookup f (lowerStr d) with
        | some r => exact hf (lowerStr d) r hl
        | none => rfl
      rw [hstep]
      simp only [List.map_cons]
      rw [hhead, ih]

/-- An input domain whose lower-cased key is absent from the accumulator
appears in the output with its original casing, Unknown status and no
price. -/
theorem buildResults_unknown (ds : List String) (f : FoundMap) (d : String)
    (hd : d ∈ ds) (hl : mapLookup f (lowerStr d) = none) :
    ({ domain := d, status := .statusUnknown, price := "" } : DomainResult) ∈
      buildResults ds f := by
  unfold buildResults
  refine List.mem_map.mpr ⟨d, hd, ?_⟩
  rw [hl]

/-- Every successful run decomposes into a successful seed search followed
by the follow-up loop, with the output built from the final
accumulator. -/
theorem checkDomains_ok_destruct (oracle : String → Nat → PageBehavior)
    (domains : List String) (out : RunOutcome)
    (h : checkDomains oracle domains = some (.ok out)) :
    ∃ d0 rest f1, domains = d0 :: rest ∧
      (searchWithRetry (oracle d0) (lowerList domains) []).result = .ok f1 ∧
      out.found = (followUps oracle (lowerList domains) f1 domains []).1 ∧
      out.warnings = (followUps oracle (lowerList domains) f1 domains []).2 ∧
      out.results = buildResults domains out.found := by
  cases domains with
  | nil => exact absurd h (by simp [checkDomains])
  | cons d0 rest =>
      simp only [checkDomains] at h
      cases hres : (searchWithRetry (oracle d0) (lowerList (d0 :: rest))
          []).result with
      | error e =>
          rw [hres] at h
          exact absurd h (by simp)
      | ok f1 =>
          rw [hres] at h
          simp only [Option.some.injEq, Except.ok.injEq] at h
          refine ⟨d0, rest, f1, rfl, hres, ?_, ?_, ?_⟩
          · rw [← h]
          · rw [← h]
          · rw [← h]

theorem run_keyConsistent (oracle : String → Nat → PageBehavior)
    (domains : List String) (out : RunOutcome)
    (h : checkDomains oracle domains = some (.ok out)) :
    KeyConsistent out.found := by
  obtain ⟨d0, rest, f1, hdom, hseed, hfound, -, -⟩ :=
    checkDomains_ok_destruct oracle domains out h
  rw [hfound]
  have hf1 : KeyConsistent f1 :=
    searchWithRetry_preserves (oracle d0) (lowerList domains) [] f1
      KeyConsistent
      (fun arts f hf => scrapeResults_keyConsistent arts (lowerList domains) f hf)
      keyConsistent_nil hseed
  exact followUps_preserves oracle (lowerList domains) KeyConsistent
    (fun arts f hf => scrapeResults_keyConsistent arts (lowerList domains) f hf)
    domains f1 [] hf1

theorem run_keysWanted (oracle : String → Nat → PageBehavior)
    (domains : List String) (out : RunOutcome)
    (h : checkDomains oracle domains = some (.ok out)) :
    KeysWanted (lowerList domains) out.found := by
  obtain ⟨d0, rest, f1, hdom, hseed, hfound, -, -⟩ :=
    checkDomains_ok_destruct oracle domains out h
  rw [hfound]
  have hf1 : KeysWanted (lowerList domains) f1 :=
    searchWithRetry_preserves (oracle d0) (lowerList domains) [] f1
      (KeysWanted (lowerList domains))
      (fun arts f hf => scrapeResults_keysWanted arts (lowerList domains) f hf)
      (keysWanted_nil (lowerList domains)) hseed
  exact followUps_preserves oracle (lowerList domains)
    (KeysWanted (lowerList domains))
    (fun arts f hf => scrapeResults_keysWanted arts (lowerList domains) f hf)
    domains f1 [] hf1

/-! ### C2: output ordering and casing -/

/-- A result element whose rendered text is the lower-cased form of the
requested domain. -/
def artE : Article :=
  { nameHeadings := ["example.com"], headings := [],
    classAttr := some "domain-box available", prices := [] }

/-- Value of `parseArticle artE`. -/
def resE : DomainResult :=
  { domain := "example.com", status := .statusAvailable, price := "" }

/-- A page rendering `artE`. -/
def pageE : PageBehavior :=
  { navOk := true, resultsAppear := true, title := "",
    pollCounts := fun _ => 1, scrapeOk := true, articles := [artE] }

/-- Claim C2, counterexample: for the input "Example.COM", when the page
renders the domain as "example.com", the run succeeds and the output row
carries the page-rendered text "example.com", not the caller's original
casing "Example.COM": the output domain is taken from the stored
DomainResult, not from the input list. -/
theorem output_casing_cex :
    checkDomains (fun _ _ => pageE) ["Example.COM"] =
      some (.ok { results := [resE], warnings := [],
                  found := [("example.com", resE)] }) ∧
    (resE.domain == "Example.COM") = false :=
  ⟨rfl, by decide⟩

/-- Claim C2, amended: on every successful run the result list has the same
length as the input list and, position by position, the same lower-cased
domain as the input (the output preserves input order up to letter case: a
found row carries the page-rendered trimmed text, which can differ from
the input only in casing); an input domain absent from FoundMap appears
with its exact original casing, Unknown status and no price. -/
theorem checkDomains_output_alignment (oracle : String → Nat → PageBehavior)
    (domains : List String) (out : RunOutcome)
    (h : checkDomains oracle domains = some (.ok out)) :
    out.results.length = domains.length ∧
    out.results.map (fun r => lowerStr r.domain) = domains.map lowerStr ∧
    (∀ d, d ∈ domains → mapLookup out.found (lowerStr d) = none →
      ({ domain := d, status := DomainStatus.statusUnknown, price := "" } :
        DomainResult) ∈ out.results) := by
  obtain ⟨d0, rest, f1, hdom, hseed, hfound, hwarn, hres⟩ :=
    checkDomains_ok_destruct oracle domains out h
  have hkc : KeyConsistent out.found := run_keyConsistent oracle domains out h
  refine ⟨?_, ?_, ?_⟩
  · rw [hres]
    exact buildResults_length domains out.found
  · rw [hres]
    exact buildResults_lower out.found hkc domains
  · intro d hd hl
    rw [hres]
    exact buildResults_unknown domains out.found d hd hl

/-- Witness for C2 (amended): the "Example.COM" run aligns lower-cased. -/
theorem checkDomains_output_alignment_witness :
    List.map (fun r => lowerStr r.domain) [resE] =
      List.map lowerStr ["Example.COM"] :=
  (checkDomains_output_alignment (fun _ _ => pageE) ["Example.COM"]
    { results := [resE], warnings := [], found := [("example.com", resE)] }
    rfl).2.1

/-! ### C8: seed failures are fatal, follow-up failures are recovered -/

/-- The seed page for "a.com": one Taken result for a.com only. -/
def artTakenA : Article :=
  { nameHeadings := ["a.com"], headings := [],
    classAttr := some "domain-box unavailable", prices := [] }

/-- Value of `parseArticle artTakenA`. -/
def resTakenA : DomainResult :=
  { domain := "a.com", status := .statusTaken, price := "" }

/-- A sibling result for "b.com" rendered by the "c.com" query. -/
def artAvailB : Article :=
  { nameHeadings := ["b.com"], headings := [],
    classAttr := some "domain-box available", prices := ["$5.00"] }

/-- Value of `parseArticle artAvailB`. -/
def resAvailB : DomainResult :=
  { domain := "b.com", status := .statusAvailable, price := "$5.00" }

/-- The "c.com" result. -/
def artAvailC : Article :=
  { nameHeadings := ["c.com"], headings := [],
    classAttr := some "domain-box available", prices := [] }

/-- Value of `parseArticle artAvailC`. -/
def resAvailC : DomainResult :=
  { domain := "c.com", status := .statusAvailable, price := "" }

/-- The page returned for the seed query "a.com". -/
def pageSeedA : PageBehavior :=
  { navOk := true, resultsAppear := true, title := "",
    pollCounts := fun _ => 1, scrapeOk := true, articles := [artTakenA] }

/-- The page returned for the query "c.com": it fans out a sibling result
for b.com as well. -/
def pageFanC : PageBehavior :=
  { navOk := true, resultsAppear := true, title := "",
    pollCounts := fun _ => 1, scrapeOk := true,
    articles := [artAvailC, artAvailB] }

/-- An oracle under which the seed query "a.com" succeeds, the follow-up
query "b.com" fails at navigation, and the follow-up query "c.com"
succeeds with fan-out that includes b.com. -/
def oracleFan : String → Nat → PageBehavior := fun q _ =>
  if q = "a.com" then pageSeedA
  else if q = "c.com" then pageFanC
  else pageNavFail

/-- The outcome of running `oracleFan` on ["a.com", "b.com", "c.com"]. -/
def outFan : RunOutcome :=
  { results := [resTakenA, resAvailB, resAvailC], warnings := ["b.com"],
    found := [("a.com", resTakenA), ("c.com", resAvailC),
              ("b.com", resAvailB)] }

/-- Claim C8, counterexample: the follow-up query for b.com fails and a
warning is emitted, yet b.com does not appear in the final output as
Unknown with no price: the later follow-up for c.com fans out a result for
b.com, which fills the b.com row as Available with a price. -/
theorem followup_unknown_cex :
    checkDomains oracleFan ["a.com", "b.com", "c.com"] =
      some (.ok outFan) ∧
    outFan.warnings = ["b.com"] ∧
    outFan.results.getD 1
        { domain := "", status := .statusUnknown, price := "" } =
      resAvailB ∧
    (resAvailB.status == DomainStatus.statusUnknown) = false ∧
    (resAvailB.price == "") = false :=
  ⟨rfl, rfl, rfl, by decide, by decide⟩

/-- Claim C8, amended: a search failure on the seed query aborts the whole
run with that error, and once the seed query succeeds the run always
completes (a follow-up failure never aborts the batch); every emitted
warning names one of the input domains; and an input domain whose
lower-cased key is absent from the final FoundMap appears in the output
with status Unknown and no price — a domain whose follow-up failed is
Unknown unless a later query's results happened to include it. -/
theorem seed_fatal_followup_recovered (oracle : String → Nat → PageBehavior) :
    (∀ d0 rest e,
      (searchWithRetry (oracle d0) (lowerList (d0 :: rest)) []).result =
        .error e →
      checkDomains oracle (d0 :: rest) = some (.error e)) ∧
    (∀ d0 rest f1,
      (searchWithRetry (oracle d0) (lowerList (d0 :: rest)) []).result =
        .ok f1 →
      ∃ out, checkDomains oracle (d0 :: rest) = some (.ok out)) ∧
    (∀ domains out d, checkDomains oracle domains = some (.ok out) →
      d ∈ out.warnings → d ∈ domains) ∧
    (∀ domains out d, checkDomains oracle domains = some (.ok out) →
      d ∈ domains → mapLookup out.found (lowerStr d) = none →
      ({ domain := d, status := DomainStatus.statusUnknown, price := "" } :
        DomainResult) ∈ out.results) := by
  refine ⟨?_, ?_, ?_, ?_⟩
  · intro d0 rest e he
    simp only [checkDomains]
    rw [he]
  · intro d0 rest f1 hf
    simp only [checkDomains]
    rw [hf]
    exact ⟨_, rfl⟩
  · intro domains out d h hw
    obtain ⟨d0, rest, f1, hdom, hseed, hfound, hwarn, hres⟩ :=
      checkDomains_ok_destruct oracle domains out h
    rw [hwarn] at hw
    rcases followUps_warnings oracle (lowerList domains) domains f1 [] d hw
      with h0 | hd
    · exact absurd h0 (List.not_mem_nil d)
    · exact hd
  · intro domains out d h hd hl
    obtain ⟨d0, rest, f1, hdom, hseed, hfound, hwarn, hres⟩ :=
      checkDomains_ok_destruct oracle domains out h
    rw [hres]
    exact buildResults_unknown domains out.found d hd hl

/-- Witness for C8 (amended): a failing seed query aborts the run with the
seed's error. -/
theorem seed_fatal_followup_recovered_witness :
    checkDomains oracleNone ["a.com"] =
      some (.error (.search .navigating)) :=
  (seed_fatal_followup_recovered oracleNone).1 "a.com" []
    (.search .navigating) rfl

/-! ### C9: every FoundMap key is in WantedSet -/

/-- Claim C9: a scrape never stores a key outside `wanted` (so, starting from
the empty accumulator, every key of FoundMap is a member of WantedSet at
every step of the run), and on every successful run every key of the final
FoundMap is one of the lower-cased input domains. -/
theorem accumulator_filter :
    (∀ (wanted : List String) (found : FoundMap) (articles : List Article),
      (∀ k, (mapLookup found k).isSome = true → wanted.contains k = true) →
      ∀ k, (mapLookup (scrapeResults articles wanted found) k).isSome = true →
        wanted.contains k = true) ∧
    (∀ (oracle : String → Nat → PageBehavior) (domains : List String)
      (out : RunOutcome), checkDomains oracle domains = some (.ok out) →
      ∀ k, (mapLookup out.found k).isSome = true →
        (lowerList domains).contains k = true) := by
  constructor
  · intro wanted found articles hfound k hk
    exact scrapeResults_keysWanted articles wanted found hfound k hk
  · intro oracle domains out h k hk
    exact run_keysWanted oracle domains out h k hk

/-- Witness for C9: in the `oracleFan` run the stored key "b.com" is one of
the lower-cased inputs. -/
theorem accumulator_filter_witness :
    (lowerList ["a.com", "b.com", "c.com"]).contains "b.com" = true :=
  accumulator_filter.2 oracleFan ["a.com", "b.com", "c.com"] outFan rfl
    "b.com" rfl

/-! ### C10: the seed query needs a non-empty input list -/

/-- Claim C10: the core reads the first element of its input
unconditionally for the seed query: on the empty list the access is out of
range (modelled by `checkDomains` returning `none`), on any non-empty list
the run is well-defined; and the command-line layer establishes the
precondition by printing usage and exiting with code 1 on an empty
argument list, before the core is ever called. -/
theorem seed_requires_nonempty :
    (∀ oracle : String → Nat → PageBehavior, checkDomains oracle [] = none) ∧
    (∀ (oracle : String → Nat → PageBehavior) (domains : List String),
      domains ≠ [] → (checkDomains oracle domains).isSome = true) ∧
    (∀ oracle : String → Nat → PageBehavior,
      mainModel oracle [] = MainOutcome.usageExit) := by
  refine ⟨fun _ => rfl, ?_, fun _ => rfl⟩
  intro oracle domains hne
  cases domains with
  | nil => exact absurd rfl hne
  | cons d0 rest =>
      simp only [checkDomains]
      cases hres : (searchWithRetry (oracle d0) (lowerList (d0 :: rest))
          []).result with
      | error e => rfl
      | ok f1 => rfl

/-- Witness for C10: a singleton argument list satisfies the precondition
and the run is defined. -/
theorem seed_requires_nonempty_witness :
    (checkDomains oracleNone ["a.com"]).isSome = true :=
  seed_requires_nonempty.2.1 oracleNone ["a.com"] (by decide)

end Domainr
